import Mathlib

/-!
Verification of the inventory-management backend (Node/Express + Sequelize).

The development shallowly embeds the program's pure logic:

* the `Product` record (from the Sequelize model `models/Product.js`,
  provided as `src/unnamed/part_000`), with its instance method
  `updateStock`;
* the utility functions of `src/backend/utils/helpers.js`
  (`createPaginationMeta`, `buildSearchFilters`,
  `calculateInventoryStats`, `formatProductResponse`,
  `validateStockOperation`, `generateSimpleReport`);
* the stock-operation body validation of
  `src/backend/middleware/validation.js` (Joi schema), and the relevant
  request handlers of `src/backend/routes/products.js`
  (`GET /search`, `GET /`, `PATCH /:id/stock`).

JavaScript numbers are modelled as `Int` where the program treats them as
integers (stock, quantities, pagination) and as `Rat` where decimals occur
(price, cost, monetary values).  JavaScript truthiness on the optional
string/number/boolean fields is modelled explicitly: an absent field is
`none`, and the empty string, the number `0` and `false` are falsy.
Database `NULL` in SQL comparisons makes the comparison fail, which the
embedding reflects in the filter semantics.
-/

namespace Inventory

/-- A product row, fields in the order of `Product.init` in the Sequelize
model.  The system-maintained timestamps (`created_at`, `updated_at`,
`deleted_at`) are opaque bookkeeping passed through by the formatter and
are omitted.  `price`/`cost` are `DECIMAL(10,2)` columns whose model
getters coerce to numbers, modelled as `Rat`; nullable columns are
`Option`. -/
structure Product where
  id : String
  name : String
  sku : String
  description : Option String
  price : Rat
  cost : Option Rat
  stock : Int
  min_stock : Option Int
  category : Option String
  brand : Option String
  is_active : Bool
  image_url : Option String
deriving DecidableEq, Repr

/-- JavaScript truthiness coercion of `product.min_stock || 5`: `null`
(absent) and `0` are falsy, every other number is truthy. -/
def jsOrFive (m : Option Int) : Int :=
  match m with
  | none => 5
  | some v => if v = 0 then 5 else v

/-- The rounding `Math.round(x * 100) / 100` used for monetary totals.
`Math.round x` is `⌊x + 1/2⌋` in JavaScript. -/
def round2 (q : Rat) : Rat :=
  ((⌊q * 100 + 1 / 2⌋ : Int) : Rat) / 100

/-- Wire representation built by `formatProductResponse` (helpers.js
lines 167-193): the stored fields plus the derived `needs_restock`,
`is_out_of_stock` and `stock_value`. -/
structure FormattedProduct where
  id : String
  name : String
  sku : String
  description : Option String
  price : Rat
  cost : Option Rat
  stock : Int
  min_stock : Option Int
  category : Option String
  brand : Option String
  is_active : Bool
  image_url : Option String
  needs_restock : Bool
  is_out_of_stock : Bool
  stock_value : Rat
deriving DecidableEq, Repr

/-- `formatProductResponse` (helpers.js lines 167-193).  `cost` passes
through `product.cost ? parseFloat(product.cost) : null`, so a falsy
stored cost (absent or `0`) becomes `null`.  The derived fields are
`needs_restock = stock <= (min_stock || 5)`, `is_out_of_stock =
(stock === 0)`, `stock_value = price * stock`. -/
def formatProductResponse (p : Product) : FormattedProduct where
  id := p.id
  name := p.name
  sku := p.sku
  description := p.description
  price := p.price
  cost := match p.cost with
    | some c => if c = 0 then none else some c
    | none => none
  stock := p.stock
  min_stock := p.min_stock
  category := p.category
  brand := p.brand
  is_active := p.is_active
  image_url := p.image_url
  needs_restock := decide (p.stock ≤ jsOrFive p.min_stock)
  is_out_of_stock := decide (p.stock = 0)
  stock_value := p.price * p.stock

/-- Pagination metadata object produced by `createPaginationMeta`
(helpers.js lines 26-41).  `next_page`/`prev_page` are `null` when no such
page exists. -/
structure PaginationMeta where
  current_page : Int
  per_page : Int
  total_items : Int
  total_pages : Int
  has_next_page : Bool
  has_prev_page : Bool
  next_page : Option Int
  prev_page : Option Int
deriving DecidableEq, Repr

/-- `createPaginationMeta(page, limit, total)` (helpers.js lines 26-41):
`totalPages = Math.ceil(total / limit)` and the page links derived from
it. -/
def createPaginationMeta (page limit total : Int) : PaginationMeta :=
  let totalPages : Int := ⌈(total : Rat) / (limit : Rat)⌉
  { current_page := page
    per_page := limit
    total_items := total
    total_pages := totalPages
    has_next_page := decide (page < totalPages)
    has_prev_page := decide (1 < page)
    next_page := if page < totalPages then some (page + 1) else none
    prev_page := if 1 < page then some (page - 1) else none }

/-- Row offset used by the listing handler (`GET /`, routes/products.js
line 50): `offset = (parseInt(page) - 1) * parseInt(limit)`. -/
def listOffset (page limit : Int) : Int :=
  (page - 1) * limit

/-- The single `Op.or` slot of the `where` object built by
`buildSearchFilters`: either the general-search group over
name/sku/description, or the low-stock group
`stock <= min_stock OR stock <= 10`. -/
inductive OrGroup where
  | searchGroup (s : String)
  | lowStockGroup
deriving DecidableEq, Repr

/-- The `where` object built by `buildSearchFilters` (helpers.js lines
44-80): at most one OR group (a plain JS object has a single `Op.or`
key) plus the category / brand / is_active conjuncts. -/
structure WhereFilter where
  orGroup : Option OrGroup
  category : Option String
  brand : Option String
  is_active : Option Bool
deriving DecidableEq, Repr

/-- The validated listing query (Joi `querySchema` fields used by
`buildSearchFilters`); each field is absent or a validated value. -/
structure SearchParams where
  search : Option String
  category : Option String
  brand : Option String
  is_active : Option Bool
  low_stock : Option Bool
deriving DecidableEq, Repr

/-- `buildSearchFilters` (helpers.js lines 44-80), following the source
order of assignments: the `search` group is written to the `Op.or` key
first, and the `low_stock` group is written to the same key afterwards,
overwriting it when both guards are truthy.  String guards follow JS
truthiness (absent and empty string are falsy); the `is_active` guard is
`!== undefined`; the `low_stock` guard is truthy only for `true`. -/
def buildSearchFilters (sp : SearchParams) : WhereFilter :=
  let orAfterSearch : Option OrGroup :=
    match sp.search with
    | some s => if s = "" then none else some (OrGroup.searchGroup s)
    | none => none
  let categoryFilter : Option String :=
    match sp.category with
    | some c => if c = "" then none else some c
    | none => none
  let brandFilter : Option String :=
    match sp.brand with
    | some b => if b = "" then none else some b
    | none => none
  let orFinal : Option OrGroup :=
    if sp.low_stock = some true then some OrGroup.lowStockGroup else orAfterSearch
  { orGroup := orFinal
    category := categoryFilter
    brand := brandFilter
    is_active := sp.is_active }

/-- Lower-casing of a string, character by character. -/
def jsLower (s : String) : String :=
  String.mk (s.data.map Char.toLower)

/-- JavaScript `String.prototype.trim`: strip leading and trailing
whitespace. -/
def jsTrim (s : String) : String :=
  String.mk
    (((s.data.dropWhile Char.isWhitespace).reverse.dropWhile Char.isWhitespace).reverse)

/-- Case-insensitive containment, the semantics of the SQL
`column ILIKE binding concat of percent, pattern, percent`. -/
def iLike (hay pat : String) : Bool :=
  decide ((jsLower pat).data <:+: (jsLower hay).data)

/-- `ILIKE` on a nullable column: SQL `NULL ILIKE x` is not true. -/
def iLikeOpt (hay : Option String) (pat : String) : Bool :=
  match hay with
  | some h => iLike h pat
  | none => false

/-- Row semantics of one `Op.or` group of the filter.  The low-stock
group is `stock <= min_stock OR stock <= 10` where the first comparison
is against the row's own `min_stock` column and is not true when that
column is `NULL`. -/
def orGroupMatches (g : OrGroup) (p : Product) : Bool :=
  match g with
  | OrGroup.searchGroup s =>
      iLike p.name s || iLike p.sku s || iLikeOpt p.description s
  | OrGroup.lowStockGroup =>
      (match p.min_stock with
       | some m => decide (p.stock ≤ m)
       | none => false) || decide (p.stock ≤ 10)

/-- Row semantics of the whole `where` object: the OR group and each
scalar filter are conjoined. -/
def whereMatches (w : WhereFilter) (p : Product) : Bool :=
  (match w.orGroup with
   | some g => orGroupMatches g p
   | none => true)
  && (match w.category with
      | some c => iLikeOpt p.category c
      | none => true)
  && (match w.brand with
      | some b => iLikeOpt p.brand b
      | none => true)
  && (match w.is_active with
      | some a => p.is_active == a
      | none => true)

/-- Result shape of `calculateInventoryStats` (helpers.js lines
112-164), after the category/brand sets are converted to their sizes. -/
structure InventoryStats where
  total_products : Nat
  total_value : Rat
  low_stock_count : Nat
  out_of_stock_count : Nat
  categories : Nat
  brands : Nat
deriving DecidableEq, Repr

/-- Mutable accumulator of the `products.forEach` loop in
`calculateInventoryStats`: running total value, the two counters, and
the two JS `Set`s of seen category/brand values (a `Set` only tracks
distinct membership, modelled as `Finset String`). -/
@[ext]
structure StatsAcc where
  total_value : Rat
  low_stock_count : Nat
  out_of_stock_count : Nat
  categories : Finset String
  brands : Finset String

/-- The truthy value of a nullable string field, as used by the guards
`if (product.category)` / `if (product.brand)`: `null` and the empty
string are falsy. -/
def truthyString (s : Option String) : Option String :=
  match s with
  | some c => if c = "" then none else some c
  | none => none

/-- One iteration of the `products.forEach` loop of
`calculateInventoryStats`: add `price * stock` to the total, bump the
low-stock counter when `stock <= (min_stock || 5)`, bump the
out-of-stock counter when `stock === 0`, and add truthy category/brand
values to the corresponding sets. -/
def statsStep (acc : StatsAcc) (p : Product) : StatsAcc where
  total_value := acc.total_value + p.price * p.stock
  low_stock_count :=
    if p.stock ≤ jsOrFive p.min_stock then acc.low_stock_count + 1
    else acc.low_stock_count
  out_of_stock_count :=
    if p.stock = 0 then acc.out_of_stock_count + 1 else acc.out_of_stock_count
  categories :=
    match truthyString p.category with
    | some c => insert c acc.categories
    | none => acc.categories
  brands :=
    match truthyString p.brand with
    | some b => insert b acc.brands
    | none => acc.brands

/-- `calculateInventoryStats` (helpers.js lines 112-164): the empty
collection short-circuits to all zeros; otherwise the `forEach` loop
accumulates, the sets are converted to sizes, and the total value is
rounded to 2 decimals at the end. -/
def calculateInventoryStats (products : List Product) : InventoryStats :=
  if products.isEmpty then
    { total_products := 0, total_value := 0, low_stock_count := 0
      out_of_stock_count := 0, categories := 0, brands := 0 }
  else
    let acc := products.foldl statsStep
      { total_value := 0, low_stock_count := 0, out_of_stock_count := 0
        categories := ∅, brands := ∅ }
    { total_products := products.length
      total_value := round2 acc.total_value
      low_stock_count := acc.low_stock_count
      out_of_stock_count := acc.out_of_stock_count
      categories := acc.categories.card
      brands := acc.brands.card }

/-- `Product.updateStock(quantity, operation)` (model file, lines
22-33): `subtract` throws the constant message when `stock < quantity`
and otherwise decrements; `add` increments unconditionally; any other
tag falls through both branches and saves the unchanged stock.  The
returned value is the stock that gets persisted. -/
def updateStock (stock quantity : Int) (operation : String) : Except String Int :=
  if operation = "subtract" then
    if stock < quantity then Except.error "Stock insuficiente"
    else Except.ok (stock - quantity)
  else if operation = "add" then Except.ok (stock + quantity)
  else Except.ok stock

/-- `validateStockOperation` of helpers.js (lines 203-213), which builds
its insufficient-stock message from the current stock and requested
quantity.  Note the insufficient-stock guard is evaluated before the
non-positive-quantity guard.  (This helper is exported but not called by
the stock route, which uses the Joi middleware of the same name.) -/
def validateStockOperation (currentStock : Int) (operation : String) (quantity : Int) : Except String Bool :=
  if operation = "subtract" ∧ currentStock < quantity then
    Except.error ("Stock insuficiente. Stock actual: " ++ toString currentStock
      ++ ", cantidad solicitada: " ++ toString quantity)
  else if quantity ≤ 0 then
    Except.error "La cantidad debe ser mayor a 0"
  else Except.ok true

/-- The Joi `stockSchema` of the `validateStockOperation` middleware
(validation.js lines 257-304) on an integer quantity: with the default
`abortEarly`, the `quantity` key is checked first (`positive`), then the
`operation` key (`valid add subtract`).  `none` means the body passed
validation. -/
def validateStockBody (quantity : Int) (operation : String) : Option String :=
  if ¬ 0 < quantity then some "La cantidad debe ser mayor a 0"
  else if operation ≠ "add" ∧ operation ≠ "subtract" then
    some "La operación debe ser add o subtract"
  else none

/-- The `PATCH /:id/stock` pipeline for a found product (routes lines
279-316): the validation middleware runs first and a failing body never
reaches the handler; otherwise the handler calls
`product.updateStock(quantity, operation)` and a thrown error becomes a
400 with the thrown message.  On success the new stock is returned. -/
def stockEndpoint (stock quantity : Int) (operation : String) : Except String Int :=
  match validateStockBody quantity operation with
  | some e => Except.error e
  | none => updateStock stock quantity operation

/-- The product's stock after the endpoint runs: `this.stock` is only
mutated on the non-throwing paths of `updateStock`, so a failure leaves
it at its previous value. -/
def stockAfter (stock quantity : Int) (operation : String) : Int :=
  match stockEndpoint stock quantity operation with
  | Except.ok s => s
  | Except.error _ => stock

/-- Report object built by `generateSimpleReport` (helpers.js lines
216-250); the `generated_at` timestamp is opaque bookkeeping and is
omitted. -/
structure Report where
  type : String
  data : List Product
  title : String
  total_items : Nat
  stats : InventoryStats
deriving Repr

/-- Sort comparator of the `high_value` report,
`(a, b) => (b.price * b.stock) - (a.price * a.stock)`: `a` may precede
`b` exactly when the comparator is non-positive, i.e. descending order
of `price * stock`. -/
def highValueLe (a b : Product) : Bool :=
  decide (b.price * b.stock ≤ a.price * a.stock)

/-- `generateSimpleReport` (helpers.js lines 216-250): filter (and for
`high_value`, sort) the collection per the report type, then attach
title, item count and the statistics of the filtered data. -/
def generateSimpleReport (products : List Product) (type : String) : Report :=
  let data : List Product :=
    if type = "low_stock" then
      products.filter fun p => p.stock ≤ jsOrFive p.min_stock
    else if type = "out_of_stock" then
      products.filter fun p => p.stock = 0
    else if type = "high_value" then
      (products.filter fun p => 1000 < p.price * (p.stock : Rat)).mergeSort highValueLe
    else products
  let title : String :=
    if type = "low_stock" then "Productos con Stock Bajo"
    else if type = "out_of_stock" then "Productos Agotados"
    else if type = "high_value" then "Productos de Alto Valor en Inventario"
    else "Inventario General"
  { type := type
    data := data
    title := title
    total_items := data.length
    stats := calculateInventoryStats data }

/-- The OR group of the `GET /search` query (routes lines 145-158):
name, sku, description, category or brand contains the term
case-insensitively. -/
def searchTermMatches (term : String) (p : Product) : Bool :=
  iLike p.name term || iLike p.sku term || iLikeOpt p.description term
    || iLikeOpt p.category term || iLikeOpt p.brand term

/-- Comparator of the `ORDER BY name ASC` clause used by the search and
report queries. -/
def nameLe (a b : Product) : Bool :=
  decide (a.name ≤ b.name)

/-- The `GET /search` handler (routes lines 136-167) over the live
database rows: reject when the search term is falsy or its trim is
shorter than 2 characters, otherwise return the active rows matching
the trimmed term, ordered by name, limited to 20. -/
def searchHandler (search : Option String) (db : List Product) : Except String (List Product) :=
  let falsy : Bool :=
    match search with
    | some s => s = ""
    | none => true
  if falsy || (jsTrim (search.getD "")).length < 2 then
    Except.error "El término de búsqueda debe tener al menos 2 caracteres"
  else
    let term := jsTrim (search.getD "")
    Except.ok
      (((db.filter fun p => searchTermMatches term p && p.is_active).mergeSort
        nameLe).take 20)

/-! ## Helper lemmas -/

/-- Closed form of the `forEach` accumulation of
`calculateInventoryStats`, for an arbitrary starting accumulator. -/
lemma statsFold_eq (ps : List Product) (acc : StatsAcc) :
    ps.foldl statsStep acc =
      { total_value := acc.total_value + (ps.map fun p => p.price * (p.stock : Rat)).sum
        low_stock_count :=
          acc.low_stock_count + ps.countP fun p => decide (p.stock ≤ jsOrFive p.min_stock)
        out_of_stock_count := acc.out_of_stock_count + ps.countP fun p => decide (p.stock = 0)
        categories := acc.categories ∪ (ps.filterMap fun p => truthyString p.category).toFinset
        brands := acc.brands ∪ (ps.filterMap fun p => truthyString p.brand).toFinset } := by
  induction ps generalizing acc with
  | nil => simp
  | cons p ps ih =>
    rw [List.foldl_cons, ih]
    ext
    · simp [statsStep, add_assoc]
    · simp only [statsStep, List.countP_cons, decide_eq_true_eq]
      by_cases hc : p.stock ≤ jsOrFive p.min_stock <;> simp only [hc, if_true, if_false,
        reduceIte] <;> omega
    · simp only [statsStep, List.countP_cons, decide_eq_true_eq]
      by_cases hc : p.stock = 0 <;> simp only [hc, if_true, if_false, reduceIte] <;> omega
    · simp only [statsStep, List.filterMap_cons]
      cases h : truthyString p.category <;>
        simp [h, List.toFinset_cons, Finset.union_insert]
    · simp only [statsStep, List.filterMap_cons]
      cases h : truthyString p.brand <;>
        simp [h, List.toFinset_cons, Finset.union_insert]

lemma round2_zero : round2 0 = 0 := by
  rw [round2]
  norm_num

/-- Closed form of `calculateInventoryStats`: the empty-input
short-circuit agrees with the general formula. -/
lemma calculateInventoryStats_eq (ps : List Product) :
    calculateInventoryStats ps =
      { total_products := ps.length
        total_value := round2 ((ps.map fun p => p.price * (p.stock : Rat)).sum)
        low_stock_count := ps.countP fun p => decide (p.stock ≤ jsOrFive p.min_stock)
        out_of_stock_count := ps.countP fun p => decide (p.stock = 0)
        categories := (ps.filterMap fun p => truthyString p.category).toFinset.card
        brands := (ps.filterMap fun p => truthyString p.brand).toFinset.card } := by
  cases ps with
  | nil => simp [calculateInventoryStats, round2_zero]
  | cons p ps =>
    rw [calculateInventoryStats]
    rw [if_neg (by simp)]
    rw [statsFold_eq]
    simp

/-- The statistics only depend on the collection up to permutation. -/
lemma calculateInventoryStats_perm {l1 l2 : List Product} (h : l1.Perm l2) :
    calculateInventoryStats l1 = calculateInventoryStats l2 := by
  rw [calculateInventoryStats_eq, calculateInventoryStats_eq]
  rw [h.length_eq, (h.map fun p => p.price * (p.stock : Rat)).sum_eq,
    h.countP_eq, h.countP_eq,
    List.toFinset_eq_of_perm _ _ (h.filterMap fun p => truthyString p.category),
    List.toFinset_eq_of_perm _ _ (h.filterMap fun p => truthyString p.brand)]

/-! ## Claim theorems -/

/-- C2: for every stock-mutation request with quantity ≤ 0, any
operation tag in add/subtract and any current stock, the pipeline of
the `PATCH /:id/stock` endpoint rejects the request with the
non-positive-quantity validation error, and the insufficient-stock
error (raised inside the subtract branch of `updateStock`) is never
produced — the outcome is independent of the current stock. -/
theorem c2_nonpositive_quantity_rejected
    (stock quantity : Int) (operation : String)
    (hq : quantity ≤ 0) (_hop : operation = "add" ∨ operation = "subtract") :
    stockEndpoint stock quantity operation
      = Except.error "La cantidad debe ser mayor a 0"
    ∧ stockEndpoint stock quantity operation ≠ Except.error "Stock insuficiente"
    ∧ stockEndpoint stock quantity operation = stockEndpoint 0 quantity operation := by
  have hv : validateStockBody quantity operation
      = some "La cantidad debe ser mayor a 0" := by
    rw [validateStockBody, if_pos (by omega)]
  refine ⟨?_, ?_, ?_⟩
  · rw [stockEndpoint, hv]
  · rw [stockEndpoint, hv]
    simp
  · rw [stockEndpoint, hv, stockEndpoint, hv]

/-- C2 witness: a concrete rejected request (quantity 0, operation add,
current stock 7). -/
theorem c2_witness :
    (0 : Int) ≤ 0
    ∧ stockEndpoint 7 0 "add" = Except.error "La cantidad debe ser mayor a 0" :=
  ⟨le_refl 0, (c2_nonpositive_quantity_rejected 7 0 "add" (le_refl 0) (Or.inl rfl)).1⟩

/-- C3 counterexample: the insufficient-stock failure of the stock
endpoint is the constant message `Stock insuficiente`, identical for
different current stocks and requested quantities, so it does not carry
the current stock and requested quantity; the unused helper
`validateStockOperation` is the only place such a message is built. -/
theorem c3_counterexample :
    stockEndpoint 1 2 "subtract" = Except.error "Stock insuficiente"
    ∧ stockEndpoint 30 40 "subtract" = Except.error "Stock insuficiente"
    ∧ validateStockOperation 1 "subtract" 2
      = Except.error "Stock insuficiente. Stock actual: 1, cantidad solicitada: 2" := by
  have h : ∀ s q : Int, 0 < q → s < q →
      stockEndpoint s q "subtract" = Except.error "Stock insuficiente" := by
    intro s q h0 hlt
    rw [stockEndpoint, validateStockBody, if_neg (by omega), if_neg (by simp),
      updateStock, if_pos rfl, if_pos hlt]
  refine ⟨h 1 2 (by norm_num) (by norm_num), h 30 40 (by norm_num) (by norm_num), ?_⟩
  rw [validateStockOperation, if_pos ⟨rfl, by norm_num⟩]
  rfl

/-- C3 (amended): for every record and positive integer quantity the
subtract operation fails iff current stock < quantity, the failure
carries the constant insufficient-stock message `Stock insuficiente`
(without the current stock or requested quantity) and leaves the stock
unchanged; the add operation never fails and sets stock to
stock + quantity. -/
theorem c3_subtract_add_behavior (stock quantity : Int) (hq : 0 < quantity) :
    ((∃ e, updateStock stock quantity "subtract" = Except.error e) ↔ stock < quantity)
    ∧ (stock < quantity →
        updateStock stock quantity "subtract" = Except.error "Stock insuficiente"
        ∧ stockAfter stock quantity "subtract" = stock)
    ∧ (quantity ≤ stock →
        updateStock stock quantity "subtract" = Except.ok (stock - quantity))
    ∧ updateStock stock quantity "add" = Except.ok (stock + quantity) := by
  have hsub : ∀ s q : Int, updateStock s q "subtract"
      = if s < q then Except.error "Stock insuficiente" else Except.ok (s - q) := by
    intro s q
    rw [updateStock, if_pos rfl]
  have hadd : updateStock stock quantity "add" = Except.ok (stock + quantity) := by
    rw [updateStock, if_neg (by decide), if_pos rfl]
  refine ⟨?_, ?_, ?_, hadd⟩
  · constructor
    · rintro ⟨e, he⟩
      by_contra h
      rw [hsub, if_neg h] at he
      exact Except.noConfusion he
    · intro h
      exact ⟨_, by rw [hsub, if_pos h]⟩
  · intro h
    refine ⟨by rw [hsub, if_pos h], ?_⟩
    have hpass : validateStockBody quantity "subtract" = none := by
      rw [validateStockBody, if_neg (by omega), if_neg (by simp)]
    rw [stockAfter, stockEndpoint, hpass, hsub, if_pos h]
  · intro h
    rw [hsub, if_neg (by omega)]

/-- C3 witness: with stock 1 and quantity 2 the subtract operation
fails and the stock stays 1; with stock 5 and quantity 2 it succeeds
with stock 3; adding 2 to stock 1 gives 3. -/
theorem c3_witness :
    (0 : Int) < 2
    ∧ updateStock 1 2 "subtract" = Except.error "Stock insuficiente"
    ∧ stockAfter 1 2 "subtract" = 1
    ∧ updateStock 5 2 "subtract" = Except.ok 3
    ∧ updateStock 1 2 "add" = Except.ok 3 := by
  have h1 := c3_subtract_add_behavior 1 2 (by norm_num)
  have h5 := c3_subtract_add_behavior 5 2 (by norm_num)
  have hlt : (1 : Int) < 2 := by norm_num
  refine ⟨by norm_num, (h1.2.1 hlt).1, (h1.2.1 hlt).2, ?_, h1.2.2.2⟩
  have := h5.2.2.1 (by norm_num)
  simpa using this

/-- C4 counterexample: a record with stock 3 and a configured
min_stock of 0 is reported as needing restock even though
stock ≤ min_stock is false — a zero threshold is falsy in JS and is
replaced by the default 5, contradicting the claim that the default
applies only when min_stock is unset. -/
theorem c4_counterexample :
    (formatProductResponse
      ⟨"p1", "Widget", "WDG-1", none, 10, none, 3, some 0, none, none, true,
        none⟩).needs_restock = true
    ∧ ¬ ((3 : Int) ≤ (0 : Int)) := by
  refine ⟨by decide, by decide⟩

/-- C4 (amended): for every record with non-negative stock and
non-negative (or absent) min_stock, `needs_restock` is true iff
stock ≤ the effective threshold (min_stock, defaulting to 5 when unset
or zero), `is_out_of_stock` is true iff stock = 0, and `stock_value` is
price × stock. -/
theorem c4_formatted_derived_fields (p : Product)
    (_hstock : 0 ≤ p.stock) (_hmin : ∀ m, p.min_stock = some m → 0 ≤ m) :
    ((formatProductResponse p).needs_restock = true ↔ p.stock ≤ jsOrFive p.min_stock)
    ∧ ((formatProductResponse p).is_out_of_stock = true ↔ p.stock = 0)
    ∧ (formatProductResponse p).stock_value = p.price * (p.stock : Rat) := by
  refine ⟨?_, ?_, rfl⟩ <;> simp [formatProductResponse]

/-- C4 witness: a record with stock 3 and min_stock 10 needs restock,
is not out of stock, and has stock value 30. -/
theorem c4_witness :
    (0 : Int) ≤ 3
    ∧ (formatProductResponse
        ⟨"p1", "Widget", "WDG-1", none, 10, none, 3, some 10, none, none, true,
          none⟩).needs_restock = true
    ∧ (formatProductResponse
        ⟨"p1", "Widget", "WDG-1", none, 10, none, 3, some 10, none, none, true,
          none⟩).is_out_of_stock = false := by
  have h := c4_formatted_derived_fields
    ⟨"p1", "Widget", "WDG-1", none, 10, none, 3, some 10, none, none, true, none⟩
    (by norm_num) (by intro m hm; cases hm; norm_num)
  refine ⟨by norm_num, h.1.mpr (by decide), ?_⟩
  have := h.2.1
  by_contra hc
  simp only [Bool.not_eq_false] at hc
  have h0 := this.mp hc
  exact absurd h0 (by decide)

/-- C10: the formatter outputs cost as null exactly when the stored
cost is absent or zero, and passes a nonzero cost through unchanged, so
a stored cost of 0 is indistinguishable from an unset cost on the
wire. -/
theorem c10_cost_serialization (p : Product) :
    ((formatProductResponse p).cost = none ↔ p.cost = none ∨ p.cost = some 0)
    ∧ (∀ c : Rat, p.cost = some c → c ≠ 0 → (formatProductResponse p).cost = some c) := by
  constructor
  · cases h : p.cost with
    | none => simp [formatProductResponse, h]
    | some c =>
      by_cases hc : c = 0 <;> simp [formatProductResponse, h, hc]
  · intro c hc hne
    simp [formatProductResponse, hc, hne]

/-- C10 witness: a stored cost of 0 serializes to null and a stored
cost of 5/2 passes through. -/
theorem c10_witness :
    (formatProductResponse
      ⟨"p1", "Widget", "WDG-1", none, 10, some 0, 3, none, none, none, true,
        none⟩).cost = none
    ∧ (formatProductResponse
        ⟨"p1", "Widget", "WDG-1", none, 10, some (5 / 2), 3, none, none, none, true,
          none⟩).cost = some (5 / 2) := by
  constructor
  · exact (c10_cost_serialization
      ⟨"p1", "Widget", "WDG-1", none, 10, some 0, 3, none, none, none, true,
        none⟩).1.mpr (Or.inr rfl)
  · exact (c10_cost_serialization
      ⟨"p1", "Widget", "WDG-1", none, 10, some (5 / 2), 3, none, none, none, true,
        none⟩).2 (5 / 2) rfl (by norm_num)

/-- C5: for every positive page, positive limit and non-negative total,
the pagination metadata has total_pages = ceil(total / limit),
echoes page / limit / total, links the next and previous pages exactly
when they exist, and the listing offset is (page − 1) × limit. -/
theorem c5_pagination_meta (p l n : Int) (_hp : 1 ≤ p) (_hl : 1 ≤ l) (_hn : 0 ≤ n) :
    (createPaginationMeta p l n).total_pages = ⌈(n : Rat) / (l : Rat)⌉
    ∧ (createPaginationMeta p l n).current_page = p
    ∧ (createPaginationMeta p l n).per_page = l
    ∧ (createPaginationMeta p l n).total_items = n
    ∧ ((createPaginationMeta p l n).has_next_page = true ↔ p < ⌈(n : Rat) / (l : Rat)⌉)
    ∧ ((createPaginationMeta p l n).has_prev_page = true ↔ 1 < p)
    ∧ (p < ⌈(n : Rat) / (l : Rat)⌉ →
        (createPaginationMeta p l n).next_page = some (p + 1))
    ∧ (¬ p < ⌈(n : Rat) / (l : Rat)⌉ →
        (createPaginationMeta p l n).next_page = none)
    ∧ (1 < p → (createPaginationMeta p l n).prev_page = some (p - 1))
    ∧ (¬ 1 < p → (createPaginationMeta p l n).prev_page = none)
    ∧ listOffset p l = (p - 1) * l := by
  refine ⟨rfl, rfl, rfl, rfl, by simp [createPaginationMeta],
    by simp [createPaginationMeta], ?_, ?_, ?_, ?_, rfl⟩
  all_goals intro h
  · simp [createPaginationMeta, if_pos h]
  · simp [createPaginationMeta, if_neg h]
  · simp [createPaginationMeta, if_pos h]
  · simp [createPaginationMeta, if_neg h]

/-- C5 witness: page 2, limit 10, total 25 gives 3 total pages, links
both neighbours and offset 10. -/
theorem c5_witness :
    (1 : Int) ≤ 2
    ∧ (createPaginationMeta 2 10 25).total_pages = 3
    ∧ (createPaginationMeta 2 10 25).next_page = some 3
    ∧ (createPaginationMeta 2 10 25).prev_page = some 1
    ∧ listOffset 2 10 = 10 := by
  have hceil : (⌈((25 : Int) : Rat) / ((10 : Int) : Rat)⌉ : Int) = 3 := by
    rw [show (((25 : Int) : Rat) / ((10 : Int) : Rat)) = 5 / 2 by norm_num,
      Int.ceil_eq_iff] <;> norm_num
  have h := c5_pagination_meta 2 10 25 (by norm_num) (by norm_num) (by norm_num)
  refine ⟨by norm_num, h.1.trans hceil, ?_, ?_, by norm_num [listOffset]⟩
  · have := h.2.2.2.2.2.2.1 (by rw [hceil]; norm_num)
    simpa using this
  · have := h.2.2.2.2.2.2.2.2.1 (by norm_num)
    simpa using this

/-- C1: when a validated query carries both a truthy `search` and
`low_stock = true`, the built filter is the one built from the same
query without `search`: the low-stock OR group overwrites the
name/sku/description OR group (whose semantics are
stock ≤ own min_stock OR stock ≤ 10), while the category, brand and
is_active filters are unchanged. -/
theorem c1_low_stock_overwrites_search (q : SearchParams) (s : String)
    (_hs : q.search = some s) (_hne : s ≠ "") (hlow : q.low_stock = some true) :
    buildSearchFilters q
      = buildSearchFilters ⟨none, q.category, q.brand, q.is_active, q.low_stock⟩
    ∧ (buildSearchFilters q).orGroup = some OrGroup.lowStockGroup
    ∧ (∀ p : Product,
        whereMatches (buildSearchFilters q) p
          = whereMatches
              (buildSearchFilters ⟨none, q.category, q.brand, q.is_active, q.low_stock⟩) p)
    ∧ ∀ p : Product, orGroupMatches OrGroup.lowStockGroup p
        = (p.min_stock.elim false (fun m => decide (p.stock ≤ m))
            || decide (p.stock ≤ 10)) := by
  have heq : buildSearchFilters q
      = buildSearchFilters ⟨none, q.category, q.brand, q.is_active, q.low_stock⟩ := by
    simp [buildSearchFilters, hlow]
  refine ⟨heq, by simp [buildSearchFilters, hlow], fun p => by rw [heq], ?_⟩
  intro p
  cases hm : p.min_stock <;> simp [orGroupMatches, Option.elim, hm]

/-- C1 witness: a concrete query with search, category, brand,
is_active and low_stock set builds the same filter as without the
search text, with the low-stock group in the OR slot. -/
theorem c1_witness :
    ("lap" : String) ≠ ""
    ∧ buildSearchFilters ⟨some "lap", some "Electro", some "HP", some true, some true⟩
      = buildSearchFilters ⟨none, some "Electro", some "HP", some true, some true⟩
    ∧ (buildSearchFilters
        ⟨some "lap", some "Electro", some "HP", some true, some true⟩).orGroup
      = some OrGroup.lowStockGroup := by
  have h := c1_low_stock_overwrites_search
    ⟨some "lap", some "Electro", some "HP", some true, some true⟩ "lap"
    rfl (by decide) rfl
  exact ⟨by decide, h.1, h.2.1⟩

/-- C6: the search endpoint fails with the bad-request error exactly
when the supplied search text has fewer than 2 characters after
trimming; on success every returned record is active, matches the
trimmed term, and at most 20 records are returned. -/
theorem c6_search_endpoint (s : String) (db : List Product) :
    ((∃ e, searchHandler (some s) db = Except.error e) ↔ (jsTrim s).length < 2)
    ∧ ((jsTrim s).length < 2 →
        searchHandler (some s) db
          = Except.error "El término de búsqueda debe tener al menos 2 caracteres")
    ∧ ∀ l, searchHandler (some s) db = Except.ok l →
        l.length ≤ 20
        ∧ ∀ p ∈ l, p.is_active = true ∧ searchTermMatches (jsTrim s) p = true := by
  by_cases hlen : (jsTrim s).length < 2
  · have herr : searchHandler (some s) db
        = Except.error "El término de búsqueda debe tener al menos 2 caracteres" := by
      simp [searchHandler, hlen]
    refine ⟨⟨fun _ => hlen, fun _ => ⟨_, herr⟩⟩, fun _ => herr, ?_⟩
    intro l hl
    rw [herr] at hl
    exact Except.noConfusion hl
  · have hne : s ≠ "" := by
      intro he
      apply hlen
      subst he
      decide
    have hok : searchHandler (some s) db
        = Except.ok
            (((db.filter fun p =>
              searchTermMatches (jsTrim s) p && p.is_active).mergeSort nameLe).take 20) := by
      simp [searchHandler, hlen, hne]
    refine ⟨⟨?_, fun hc => absurd hc hlen⟩, fun hc => absurd hc hlen, ?_⟩
    · rintro ⟨e, he⟩
      rw [hok] at he
      exact Except.noConfusion he
    · intro l hl
      rw [hok] at hl
      cases hl
      constructor
      · have := List.length_take 20 ((db.filter fun p =>
          searchTermMatches (jsTrim s) p && p.is_active).mergeSort nameLe)
        omega
      · intro p hp
        have hp1 := List.mem_of_mem_take hp
        have hp2 := List.mem_mergeSort.mp hp1
        have hp3 := List.mem_filter.mp hp2
        have := hp3.2
        rw [Bool.and_eq_true] at this
        exact ⟨this.2, this.1⟩

/-- C6 witness: a one-character term is rejected; the term `lap`
against a single matching active product returns that product. -/
theorem c6_witness :
    searchHandler (some "a") []
      = Except.error "El término de búsqueda debe tener al menos 2 caracteres" :=
  (c6_search_endpoint "a" []).2.1 (by decide)

/-- C8: the aggregate calculator returns the total inventory value
(sum of price × stock, rounded to 2 decimals), the low-stock and
out-of-stock counts with the thresholds stock ≤ (min_stock or 5) and
stock = 0, and the numbers of distinct non-empty category and brand
values; the empty collection yields the all-zero statistics. -/
theorem c8_inventory_stats (ps : List Product) :
    (calculateInventoryStats ps).total_products = ps.length
    ∧ (calculateInventoryStats ps).total_value
        = round2 ((ps.map fun p => p.price * (p.stock : Rat)).sum)
    ∧ (calculateInventoryStats ps).low_stock_count
        = ps.countP (fun p => decide (p.stock ≤ jsOrFive p.min_stock))
    ∧ (calculateInventoryStats ps).out_of_stock_count
        = ps.countP (fun p => decide (p.stock = 0))
    ∧ (calculateInventoryStats ps).categories
        = (ps.filterMap fun p => truthyString p.category).toFinset.card
    ∧ (calculateInventoryStats ps).brands
        = (ps.filterMap fun p => truthyString p.brand).toFinset.card
    ∧ calculateInventoryStats [] = ⟨0, 0, 0, 0, 0, 0⟩ := by
  rw [calculateInventoryStats_eq]
  exact ⟨rfl, rfl, rfl, rfl, rfl, rfl, rfl⟩

/-- C9: a formatted record that is out of stock also needs restocking
(given a non-negative configured threshold), and consequently the
aggregate low-stock count dominates the out-of-stock count on every
collection of such records. -/
theorem c9_out_of_stock_needs_restock :
    (∀ p : Product, 0 ≤ p.stock → (∀ m, p.min_stock = some m → 0 ≤ m) →
        (formatProductResponse p).is_out_of_stock = true →
        (formatProductResponse p).needs_restock = true)
    ∧ ∀ ps : List Product, (∀ p ∈ ps, ∀ m, p.min_stock = some m → 0 ≤ m) →
        (calculateInventoryStats ps).out_of_stock_count
          ≤ (calculateInventoryStats ps).low_stock_count := by
  have hmin5 : ∀ mo : Option Int, (∀ m, mo = some m → 0 ≤ m) → (0 : Int) ≤ jsOrFive mo := by
    intro mo h
    cases mo with
    | none => norm_num [jsOrFive]
    | some v =>
      have hv0 := h v rfl
      by_cases hv : v = 0 <;> simp [jsOrFive, hv] <;> omega
  constructor
  · intro p _ hm hout
    have h0 : p.stock = 0 := by simpa [formatProductResponse] using hout
    simp only [formatProductResponse, h0, decide_eq_true_eq]
    exact hmin5 p.min_stock hm
  · intro ps hps
    rw [calculateInventoryStats_eq]
    apply List.countP_mono_left
    intro p hp hpz
    have h0 : p.stock = 0 := by simpa using hpz
    simp only [h0, decide_eq_true_eq]
    exact hmin5 p.min_stock (hps p hp)

/-- C9 witness: an out-of-stock record with configured min_stock 2
needs restocking, and on the one-element collection the counts are
ordered. -/
theorem c9_witness :
    (formatProductResponse
      ⟨"p1", "Widget", "WDG-1", none, 10, none, 0, some 2, none, none, true,
        none⟩).needs_restock = true
    ∧ (calculateInventoryStats
        [⟨"p1", "Widget", "WDG-1", none, 10, none, 0, some 2, none, none, true,
          none⟩]).out_of_stock_count
      ≤ (calculateInventoryStats
          [⟨"p1", "Widget", "WDG-1", none, 10, none, 0, some 2, none, none, true,
            none⟩]).low_stock_count := by
  constructor
  · exact c9_out_of_stock_needs_restock.1
      ⟨"p1", "Widget", "WDG-1", none, 10, none, 0, some 2, none, none, true, none⟩
      (by norm_num)
      (by intro m hm; cases hm; norm_num)
      (by decide)
  · exact c9_out_of_stock_needs_restock.2
      [⟨"p1", "Widget", "WDG-1", none, 10, none, 0, some 2, none, none, true, none⟩]
      (by
        intro p hp m hm
        rw [List.mem_singleton] at hp
        subst hp
        cases hm
        norm_num)

lemma highValueLe_trans (a b c : Product) (hab : highValueLe a b = true)
    (hbc : highValueLe b c = true) : highValueLe a c = true := by
  simp only [highValueLe, decide_eq_true_eq] at hab hbc ⊢
  exact le_trans hbc hab

lemma highValueLe_total (a b : Product) :
    (highValueLe a b || highValueLe b a) = true := by
  simp only [highValueLe, Bool.or_eq_true, decide_eq_true_eq]
  exact le_total (b.price * (b.stock : Rat)) (a.price * (a.stock : Rat))

/-- C7: the high_value report contains exactly the records with
price × stock > 1000 (as a multiset), sorted descending by
price × stock, carries the high-value title, a total_items equal to the
length of the filtered list, and statistics recomputed over the
filtered subset. -/
theorem c7_high_value_report (ps : List Product) :
    (generateSimpleReport ps "high_value").data.Perm
        (ps.filter fun p => 1000 < p.price * (p.stock : Rat))
    ∧ (generateSimpleReport ps "high_value").data.Pairwise
        (fun a b => b.price * (b.stock : Rat) ≤ a.price * (a.stock : Rat))
    ∧ (generateSimpleReport ps "high_value").title
        = "Productos de Alto Valor en Inventario"
    ∧ (generateSimpleReport ps "high_value").total_items
        = (ps.filter fun p => 1000 < p.price * (p.stock : Rat)).length
    ∧ (generateSimpleReport ps "high_value").stats
        = calculateInventoryStats (ps.filter fun p => 1000 < p.price * (p.stock : Rat)) := by
  have hdata : (generateSimpleReport ps "high_value").data
      = (ps.filter fun p => 1000 < p.price * (p.stock : Rat)).mergeSort highValueLe := by
    simp [generateSimpleReport]
  have hperm := List.mergeSort_perm
    (ps.filter fun p => 1000 < p.price * (p.stock : Rat)) highValueLe
  refine ⟨by rw [hdata]; exact hperm, ?_, by simp [generateSimpleReport], ?_, ?_⟩
  · rw [hdata]
    have hsorted := List.sorted_mergeSort highValueLe_trans highValueLe_total
      (ps.filter fun p => 1000 < p.price * (p.stock : Rat))
    exact hsorted.imp fun h => by simpa [highValueLe] using h
  · have : (generateSimpleReport ps "high_value").total_items
        = (generateSimpleReport ps "high_value").data.length := rfl
    rw [this, hdata]
    exact hperm.length_eq
  · have : (generateSimpleReport ps "high_value").stats
        = calculateInventoryStats (generateSimpleReport ps "high_value").data := rfl
    rw [this, hdata]
    exact calculateInventoryStats_perm hperm

end Inventory
